import Mathlib

/-!
# Verification of the database access layer of `school-management-backend`

Shallow embedding of the connection-pool wrapper module (the "enhanced"
version: `query`, `transaction`, `safeClientQuery`, `healthCheck` and the
`connectionMetrics` state).  JavaScript errors are modelled as records of
their `message`, `code` and `name` fields; asynchronous control flow is
modelled by explicit state machines stepped by a schedule of event labels
(single-threaded run-to-completion semantics: a task runs atomically from
one `await` to the next).
-/

set_option linter.unusedVariables false

namespace SchoolDb

/-- A JavaScript `Error` as the module observes it: `message`, optional
SQLSTATE `code` (pg sets it on database errors), and constructor `name`. -/
structure JsError where
  message : String
  code : Option String := none
  name : String := "Error"
deriving Repr, DecidableEq

/-- `connectionMetrics` global state (part_000 lines 33-39).  `avgQueryTime`
is a JS number; it is modelled as an exact rational, faithful to the
arithmetic expression the code evaluates. -/
structure Metrics where
  totalQueries : Nat
  failedQueries : Nat
  avgQueryTime : ℚ
  lastError : Option String := none
  lastErrorTime : Option Nat := none
deriving Repr, DecidableEq

/-- Substring test on character lists, for `error.message.includes(...)`. -/
def charsContain : List Char → List Char → Bool
  | _, [] => true
  | [], _ :: _ => false
  | c :: cs, p :: ps => (List.isPrefixOf (p :: ps) (c :: cs)) || charsContain cs (p :: ps)

/-- `s.includes(pat)` from JavaScript. -/
def strIncludes (s pat : String) : Bool :=
  charsContain s.data pat.data

/-- The non-retry classification of `query` (part_000 lines 162-166):
codes 23505, 23503, 42P01, 42703, or a message containing "syntax error". -/
def nonRetryable (e : JsError) : Bool :=
  e.code = some "23505" || e.code = some "23503" || e.code = some "42P01" ||
  e.code = some "42703" || strIncludes e.message "syntax error"

/-- Outcome of one `query` call: the surfaced result, the metrics state after
the call, the number of attempts performed, the backoff delays (in ms) that
were inserted, in order, and the duration recorded into the running average
(`none` when the call failed: the code computes `duration` only on the
success path). -/
structure QueryOut (α : Type) where
  result : Except JsError α
  metrics : Metrics
  attempts : Nat
  delays : List Nat
  recorded : Option Nat
deriving Repr

/-- The retry loop of `query` (part_000 lines 117-175).  `oracle n` is the
settled outcome of the `Promise.race` of attempt `n`: either the result row
set together with the wall-clock duration `Date.now() - start` observed at
that point, or the error the attempt rejected with (a pg error or the 30s
race timeout).  `fuel` is `retries + 1 - attempt`, the number of loop
iterations left; the fuel-0 branch mirrors the unreachable
`throw lastError` after the loop (line 177). -/
def queryAux (oracle : Nat → Except JsError (α × Nat)) (retries : Nat) :
    Nat → Nat → Metrics → Option JsError → QueryOut α
  | 0, attempt, m, lastErr =>
    ⟨.error (lastErr.getD ⟨"undefined", none, "TypeError"⟩), m, 0, [], none⟩
  | fuel + 1, attempt, m, lastErr =>
    -- `if (attempt > 0) await setTimeout(2^attempt * 1000)` (lines 119-123)
    let d : List Nat := if attempt > 0 then [2 ^ attempt * 1000] else []
    match oracle attempt with
    | .ok (a, dur) =>
      -- success path (lines 134-149): totalQueries++, then recompute the mean
      let m' : Metrics :=
        { m with
          totalQueries := m.totalQueries + 1
          avgQueryTime :=
            (m.avgQueryTime * (m.totalQueries : ℚ) + (dur : ℚ)) /
              ((m.totalQueries : ℚ) + 1) }
      ⟨.ok a, m', 1, d, some dur⟩
    | .error e =>
      -- catch block (lines 151-173): failedQueries++ first
      let m' : Metrics := { m with failedQueries := m.failedQueries + 1 }
      if nonRetryable e then
        ⟨.error e, m', 1, d, none⟩
      else if attempt = retries then
        ⟨.error e, m', 1, d, none⟩
      else
        let rest := queryAux oracle retries fuel (attempt + 1) m' (some e)
        ⟨rest.result, rest.metrics, rest.attempts + 1, d ++ rest.delays, rest.recorded⟩

/-- `query(text, params, retries)` (part_000 lines 113-178) as a function of
the per-attempt outcome oracle and the incoming metrics state. -/
def query (oracle : Nat → Except JsError (α × Nat)) (retries : Nat) (m : Metrics) :
    QueryOut α :=
  queryAux oracle retries (retries + 1) 0 m none

/-! ## The `transaction` wrapper (part_000 lines 181-230)

`transaction` runs on Node's single-threaded event loop: code between two
`await`s runs atomically, and interleaving happens only when a pending
promise or timer settles.  We model an execution as a fold of a *schedule*
(the order in which the pending events settle) over a state holding the
program counters of the two tasks (the main body and the `setTimeout`
handler), the `isReleased` flag, and the trace of externally visible
actions (queries issued on the client, releases, timer events). -/

/-- Externally visible actions of the transaction wrappers. -/
inductive Ev
  | qBegin | qCommit | qRollback
  | releasePlain        -- `client.release()`
  | releaseErrored      -- `client.release(true)`
  | timerFired
  | timerCancelled      -- a `clearTimeout` that actually cancelled the armed timer
deriving Repr, DecidableEq

/-- Settled outcomes of the awaited promises: the three fixed statements,
the callback, and the ROLLBACK issued by the timeout handler.  The code
only logs a failed ROLLBACK (lines 191-192 and 219-220), so the rollback
outcomes never influence control flow; they are kept for fidelity. -/
structure TxEnv (α : Type) where
  beginRes : Except JsError Unit
  bodyRes : Except JsError α
  commitRes : Except JsError Unit
  mainRollbackRes : Except JsError Unit
  timerRollbackRes : Except JsError Unit

/-- Program counter of the main path of `transaction`:  which `await` it is
suspended on, or the settled outcome of the whole call. -/
inductive MainSt (α : Type)
  | beginWait                    -- line 200: awaiting BEGIN
  | bodyWait                     -- line 201: awaiting callback(client)
  | commitWait (a : α)           -- line 202: awaiting COMMIT
  | rollbackWait (e : JsError)   -- line 218: in catch, awaiting ROLLBACK
  | done (r : Except JsError α)
deriving Repr

/-- Program counter of the `setTimeout` handler (lines 186-197). -/
inductive TimerSt
  | armed            -- timer pending, clearTimeout would cancel it
  | cancelled        -- clearTimeout ran while armed: handler never runs
  | rollbackWait     -- handler fired and is awaiting its ROLLBACK (line 190)
  | finished
deriving Repr, DecidableEq

/-- Event-loop state of one `transaction` call. -/
structure TxState (α : Type) where
  main : MainSt α
  timer : TimerSt
  isReleased : Bool
  trace : List Ev
deriving Repr

/-- Schedule labels: which pending event settles next.  A label whose event
is not pending in the current state is a no-op. -/
inductive Lab
  | beginDone | bodyDone | commitDone | mainRbDone | timerFire | timerRbDone
deriving Repr, DecidableEq

/-- `clearTimeout(timeoutHandle)`: cancels the timer only if it has not
fired yet; a handler already running (or finished) is unaffected. -/
def clearTimer (s : TxState α) : TxState α :=
  match s.timer with
  | .armed => { s with timer := .cancelled, trace := s.trace ++ [.timerCancelled] }
  | _ => s

/-- Synchronous catch block entry of `transaction` (lines 213-225 up to its
`await`): `clearTimeout`, then — if not released — issue ROLLBACK and
suspend on it; otherwise rethrow at once. -/
def txCatch (e : JsError) (s : TxState α) : TxState α :=
  let s := clearTimer s
  if s.isReleased then
    { s with main := .done (.error e) }
  else
    { s with main := .rollbackWait e, trace := s.trace ++ [.qRollback] }

/-- One event-loop step of `transaction`: the settled event wakes its task,
which then runs atomically to its next `await` or to completion. -/
def txStep (env : TxEnv α) (s : TxState α) (l : Lab) : TxState α :=
  match l with
  | .beginDone =>
    match s.main with
    | .beginWait =>
      match env.beginRes with
      | .ok _ => { s with main := .bodyWait }
      | .error e => txCatch e s
    | _ => s
  | .bodyDone =>
    match s.main with
    | .bodyWait =>
      match env.bodyRes with
      | .ok a => { s with main := .commitWait a, trace := s.trace ++ [.qCommit] }
      | .error e => txCatch e s
    | _ => s
  | .commitDone =>
    match s.main with
    | .commitWait a =>
      match env.commitRes with
      | .ok _ =>
        -- success path, lines 204-211: clearTimeout; release once; return
        let s := clearTimer s
        if s.isReleased then
          { s with main := .done (.ok a) }
        else
          { s with main := .done (.ok a), isReleased := true,
                   trace := s.trace ++ [.releasePlain] }
      | .error e => txCatch e s
    | _ => s
  | .mainRbDone =>
    match s.main with
    | .rollbackWait e =>
      -- lines 218-224: rollback settled (its failure is only logged);
      -- then release(true) unconditionally and rethrow the original error
      { s with main := .done (.error e), isReleased := true,
               trace := s.trace ++ [.releaseErrored] }
    | _ => s
  | .timerFire =>
    match s.timer with
    | .armed =>
      -- handler body, lines 186-197
      if s.isReleased then
        { s with timer := .finished, trace := s.trace ++ [.timerFired] }
      else
        { s with timer := .rollbackWait,
                 trace := s.trace ++ [.timerFired, .qRollback] }
    | _ => s
  | .timerRbDone =>
    match s.timer with
    | .rollbackWait =>
      -- lines 194-195: release(true); isReleased = true
      { s with timer := .finished, isReleased := true,
               trace := s.trace ++ [.releaseErrored] }
    | _ => s

/-- Initial state of a `transaction` call: the client is connected, the
timeout is armed (line 186) and BEGIN has been issued (line 200). -/
def txInit (α : Type) : TxState α :=
  ⟨.beginWait, .armed, false, [.qBegin]⟩

/-- Run `transaction` under a schedule of settling events. -/
def txExec (env : TxEnv α) (sched : List Lab) : TxState α :=
  sched.foldl (txStep env) (txInit α)

/-- Number of `client.release` calls (with or without the error flag) in a
trace. -/
def releaseCount (t : List Ev) : Nat :=
  t.count .releasePlain + t.count .releaseErrored

/-! ## The `safeClientQuery` wrapper (part_000 lines 233-267)

Same shape as `transaction` but with no BEGIN/COMMIT/ROLLBACK, and — the
decisive difference — its timeout handler contains no `await`: it checks
`isReleased` and releases in one atomic run. -/

/-- Program counter of the main path of `safeClientQuery`. -/
inductive ScqMain (α : Type)
  | bodyWait
  | done (r : Except JsError α)
deriving Repr

/-- Timer of `safeClientQuery`: the handler is atomic, so it is either
armed, cancelled, or finished. -/
inductive ScqTimer
  | armed | cancelled | finished
deriving Repr, DecidableEq

/-- Event-loop state of one `safeClientQuery` call. -/
structure ScqState (α : Type) where
  main : ScqMain α
  timer : ScqTimer
  isReleased : Bool
  trace : List Ev
deriving Repr

/-- Schedule labels for `safeClientQuery`. -/
inductive ScqLab
  | bodyDone | timerFire
deriving Repr, DecidableEq

/-- `clearTimeout` for the `safeClientQuery` timer. -/
def scqClearTimer (s : ScqState α) : ScqState α :=
  match s.timer with
  | .armed => { s with timer := .cancelled, trace := s.trace ++ [.timerCancelled] }
  | _ => s

/-- One event-loop step of `safeClientQuery`.  `bodyRes` is the settled
outcome of `callback(client)`. -/
def scqStep (bodyRes : Except JsError α) (s : ScqState α) (l : ScqLab) : ScqState α :=
  match l with
  | .bodyDone =>
    match s.main with
    | .bodyWait =>
      match bodyRes with
      | .ok a =>
        -- lines 247-255: clearTimeout; guarded plain release; return result
        let s := scqClearTimer s
        if s.isReleased then
          { s with main := .done (.ok a) }
        else
          { s with main := .done (.ok a), isReleased := true,
                   trace := s.trace ++ [.releasePlain] }
      | .error e =>
        -- lines 257-265: clearTimeout; guarded errored release; rethrow
        let s := scqClearTimer s
        if s.isReleased then
          { s with main := .done (.error e) }
        else
          { s with main := .done (.error e), isReleased := true,
                   trace := s.trace ++ [.releaseErrored] }
    | _ => s
  | .timerFire =>
    match s.timer with
    | .armed =>
      -- lines 238-244: the handler checks and releases atomically
      if s.isReleased then
        { s with timer := .finished, trace := s.trace ++ [.timerFired] }
      else
        { s with timer := .finished, isReleased := true,
                 trace := s.trace ++ [.timerFired, .releaseErrored] }
    | _ => s

/-- Initial state of a `safeClientQuery` call: client connected, safety
timeout armed (line 238), callback invoked (line 247). -/
def scqInit (α : Type) : ScqState α :=
  ⟨.bodyWait, .armed, false, []⟩

/-- Run `safeClientQuery` under a schedule. -/
def scqExec (bodyRes : Except JsError α) (sched : List ScqLab) : ScqState α :=
  sched.foldl (scqStep bodyRes) (scqInit α)

/-! ## `healthCheck` (part_000 lines 270-296) -/

/-- The row returned by the liveness query `SELECT NOW() as time,
version() as version`. -/
structure LivenessRow where
  time : Nat
  version : String
deriving Repr, DecidableEq

/-- Snapshot of the pool counters used in the health payload. -/
structure PoolCounts where
  total : Nat
  idle : Nat
  waiting : Nat
deriving Repr, DecidableEq

/-- The object `healthCheck` resolves with; absent JS properties are
`none`. -/
structure HealthReport where
  status : String
  database : Option String
  timestamp : Option Nat
  version : Option String
  poolCounts : PoolCounts
  metricsSnap : Option Metrics
  errField : Option String
deriving Repr, DecidableEq

/-- `healthCheck()` as a function of the settled outcome of the liveness
query and the current pool/metrics state.  The whole body is one
`try`/`catch` whose catch returns normally, so the function is total: every
outcome of the awaited query maps to a returned report, never a throw. -/
def healthCheck (res : Except JsError LivenessRow) (pc : PoolCounts)
    (m : Metrics) : HealthReport :=
  match res with
  | .ok row =>
    ⟨"healthy", some "connected", some row.time, some row.version, pc, some m, none⟩
  | .error e =>
    ⟨"unhealthy", none, none, none, pc, none, some e.message⟩

/-! ## Concrete inputs used in scenarios -/

/-- A unique-violation error as pg raises it (SQLSTATE 23505). -/
def errUnique : JsError := ⟨"duplicate key value violates unique constraint", some "23505", "error"⟩

/-- A transient connection error (no SQLSTATE code), retryable. -/
def errTransient : JsError := ⟨"Connection terminated unexpectedly", none, "Error"⟩

/-- The error pg raises when a query settles after the client was already
released/destroyed. -/
def errClosed : JsError := ⟨"Client was closed and is not queryable", none, "Error"⟩

/-- Modelled from the spec: the `TransactionTimeout` error the specification
says the runner propagates.  The source defines no such error class; the
only way it could surface is as an error whose name or message identifies a
transaction timeout, so membership is tested on both. -/
def isTransactionTimeout (e : JsError) : Bool :=
  e.name = "TransactionTimeout" || strIncludes e.message "TransactionTimeout" ||
    strIncludes e.message "Transaction timeout"

/-- The error, if any, the main path of `transaction` is currently
propagating (in the catch block or already settled). -/
def mainErr : MainSt α → Option JsError
  | .rollbackWait e => some e
  | .done (.error e) => some e
  | _ => none

/-- `e` is one of the errors the environment can inject into `transaction`
through an awaited statement or the callback (rollback failures are only
logged by the code, never propagated). -/
def txEnvError (env : TxEnv α) (e : JsError) : Prop :=
  env.beginRes = .error e ∨ env.bodyRes = .error e ∨ env.commitRes = .error e

/-- Environment of the double-release race: BEGIN succeeds, the callback
rejects (with a transient error), the rollbacks succeed. -/
def raceEnv : TxEnv Nat := ⟨.ok (), .error errTransient, .ok (), .ok (), .ok ()⟩

/-- Schedule of the double-release race: the 30 s timer fires while the
callback is pending and its ROLLBACK is still in flight when the callback
rejects; the two ROLLBACKs then settle in order. -/
def raceSched : List Lab := [.beginDone, .timerFire, .bodyDone, .timerRbDone, .mainRbDone]

/-- Environment of the timeout scenario: BEGIN succeeds, the callback
eventually resolves with 42, and the COMMIT — issued on the by-then
released client — rejects with pg's closed-client error. -/
def timeoutEnv : TxEnv Nat := ⟨.ok (), .ok 42, .error errClosed, .ok (), .ok ()⟩

/-- Schedule of the timeout scenario: the timer fires and completes its
rollback-and-release while the callback is still running; the callback then
resolves, and the post-timeout COMMIT settles (with a rejection). -/
def timeoutSched : List Lab := [.beginDone, .timerFire, .timerRbDone, .bodyDone, .commitDone]

/-- Schedule of the commit-window race: the callback completes normally
before the timeout elapses, but the timer fires while the COMMIT is still
awaited, i.e. before the success path reaches its `clearTimeout`. -/
def commitRaceSched : List Lab := [.beginDone, .bodyDone, .timerFire, .timerRbDone, .commitDone]

end SchoolDb

/-! # Theorems -/

namespace SchoolDb

/-- A fold leaves a fixed point of the step function unchanged. -/
theorem foldl_of_fixed {σ ι : Type _} (f : σ → ι → σ) (s : σ)
    (h : ∀ l, f s l = s) : ∀ ls : List ι, List.foldl f s ls = s := by
  intro ls
  induction ls with
  | nil => rfl
  | cons l ls ih => simpa [List.foldl_cons, h l] using ih

/-- Unfolding of one loop iteration that succeeds. -/
theorem queryAux_ok {oracle : Nat → Except JsError (α × Nat)} {retries : Nat}
    {attempt : Nat} {a : α} {dur : Nat} (fuel : Nat) (m : Metrics)
    (lastErr : Option JsError) (h : oracle attempt = .ok (a, dur)) :
    queryAux oracle retries (fuel + 1) attempt m lastErr =
      ⟨.ok a,
       { m with
         totalQueries := m.totalQueries + 1
         avgQueryTime :=
           (m.avgQueryTime * (m.totalQueries : ℚ) + (dur : ℚ)) /
             ((m.totalQueries : ℚ) + 1) },
       1, if attempt > 0 then [2 ^ attempt * 1000] else [], some dur⟩ := by
  simp [queryAux, h]

/-- Unfolding of one loop iteration that fails with a non-retryable error. -/
theorem queryAux_err_final {oracle : Nat → Except JsError (α × Nat)} {retries : Nat}
    {attempt : Nat} {e : JsError} (fuel : Nat) (m : Metrics)
    (lastErr : Option JsError) (h : oracle attempt = .error e)
    (hstop : nonRetryable e = true ∨ attempt = retries) :
    queryAux oracle retries (fuel + 1) attempt m lastErr =
      ⟨.error e, { m with failedQueries := m.failedQueries + 1 },
       1, if attempt > 0 then [2 ^ attempt * 1000] else [], none⟩ := by
  rcases hstop with hnr | hl
  · simp [queryAux, h, hnr]
  · subst hl
    by_cases hnr : nonRetryable e = true <;> simp [queryAux, h, hnr]

/-- Unfolding of one loop iteration that fails with a retryable error and
retries. -/
theorem queryAux_err_retry {oracle : Nat → Except JsError (α × Nat)} {retries : Nat}
    {attempt : Nat} {e : JsError} (fuel : Nat) (m : Metrics)
    (lastErr : Option JsError) (h : oracle attempt = .error e)
    (hnr : nonRetryable e = false) (hl : attempt ≠ retries) :
    queryAux oracle retries (fuel + 1) attempt m lastErr =
      ⟨(queryAux oracle retries fuel (attempt + 1)
          { m with failedQueries := m.failedQueries + 1 } (some e)).result,
       (queryAux oracle retries fuel (attempt + 1)
          { m with failedQueries := m.failedQueries + 1 } (some e)).metrics,
       (queryAux oracle retries fuel (attempt + 1)
          { m with failedQueries := m.failedQueries + 1 } (some e)).attempts + 1,
       (if attempt > 0 then [2 ^ attempt * 1000] else []) ++
         (queryAux oracle retries fuel (attempt + 1)
            { m with failedQueries := m.failedQueries + 1 } (some e)).delays,
       (queryAux oracle retries fuel (attempt + 1)
          { m with failedQueries := m.failedQueries + 1 } (some e)).recorded⟩ := by
  simp [queryAux, h, hnr, hl]

/-- Metrics bookkeeping of the `query` retry loop, by induction on the
remaining iterations: a successful call bumps `totalQueries` once and folds
the recorded duration into the running mean; every failed attempt bumps
`failedQueries` once; failures never touch `totalQueries` or
`avgQueryTime`. -/
theorem queryAux_metrics (oracle : Nat → Except JsError (α × Nat)) (retries : Nat) :
    ∀ (fuel attempt : Nat) (m : Metrics) (lastErr : Option JsError),
      (∀ a : α, (queryAux oracle retries fuel attempt m lastErr).result = .ok a →
        1 ≤ (queryAux oracle retries fuel attempt m lastErr).attempts ∧
        (queryAux oracle retries fuel attempt m lastErr).metrics.totalQueries
          = m.totalQueries + 1 ∧
        (queryAux oracle retries fuel attempt m lastErr).metrics.failedQueries + 1
          = m.failedQueries + (queryAux oracle retries fuel attempt m lastErr).attempts ∧
        ∃ d : Nat, (queryAux oracle retries fuel attempt m lastErr).recorded = some d ∧
          (queryAux oracle retries fuel attempt m lastErr).metrics.avgQueryTime
            = (m.avgQueryTime * (m.totalQueries : ℚ) + (d : ℚ)) /
                ((m.totalQueries : ℚ) + 1)) ∧
      (∀ e : JsError, (queryAux oracle retries fuel attempt m lastErr).result = .error e →
        (queryAux oracle retries fuel attempt m lastErr).metrics.totalQueries
          = m.totalQueries ∧
        (queryAux oracle retries fuel attempt m lastErr).metrics.avgQueryTime
          = m.avgQueryTime ∧
        (queryAux oracle retries fuel attempt m lastErr).metrics.failedQueries
          = m.failedQueries + (queryAux oracle retries fuel attempt m lastErr).attempts ∧
        (queryAux oracle retries fuel attempt m lastErr).recorded = none) := by
  intro fuel
  induction fuel with
  | zero =>
    intro attempt m lastErr
    constructor
    · intro a h
      simp [queryAux] at h
    · intro e h
      simp [queryAux]
  | succ fuel ih =>
    intro attempt m lastErr
    cases horacle : oracle attempt with
    | ok p =>
      obtain ⟨a, dur⟩ := p
      rw [queryAux_ok fuel m lastErr horacle]
      constructor
      · intro a' h
        exact ⟨le_refl 1, rfl, rfl, dur, rfl, rfl⟩
      · intro e h
        simp at h
    | error e' =>
      by_cases hstop : nonRetryable e' = true ∨ attempt = retries
      · rw [queryAux_err_final fuel m lastErr horacle hstop]
        constructor
        · intro a h
          simp at h
        · intro e h
          exact ⟨rfl, rfl, rfl, rfl⟩
      · push_neg at hstop
        obtain ⟨hnr, hl⟩ := hstop
        replace hnr : nonRetryable e' = false := by simpa using hnr
        rw [queryAux_err_retry fuel m lastErr horacle hnr hl]
        have hrec := ih (attempt + 1) { m with failedQueries := m.failedQueries + 1 } (some e')
        constructor
        · intro a h
          obtain ⟨h1, h2, h3, d, hd, havg⟩ := hrec.1 a h
          dsimp only at h3
          refine ⟨by dsimp only; omega, h2, ?_, d, hd, havg⟩
          dsimp only
          omega
        · intro e h
          obtain ⟨h1, h2, h3, h4⟩ := hrec.2 e h
          dsimp only at h3
          refine ⟨h1, h2, ?_, h4⟩
          dsimp only
          omega

/-- A loop whose every attempt fails with a retryable error runs all its
remaining iterations, inserting the backoff delay `2 ^ attempt * 1000` ms at
the head of each retried iteration, and surfaces the error of the final
attempt `retries`. -/
theorem queryAux_transient (oracle : Nat → Except JsError (α × Nat)) (retries : Nat)
    (err : Nat → JsError) (ho : ∀ n, oracle n = .error (err n))
    (hnr : ∀ n, nonRetryable (err n) = false) :
    ∀ (fuel attempt : Nat) (m : Metrics) (lastErr : Option JsError),
      attempt + fuel = retries + 1 → 1 ≤ attempt → 1 ≤ fuel →
      (queryAux oracle retries fuel attempt m lastErr).result = .error (err retries) ∧
      (queryAux oracle retries fuel attempt m lastErr).attempts = fuel ∧
      (queryAux oracle retries fuel attempt m lastErr).delays
        = (List.range fuel).map (fun i => 2 ^ (attempt + i) * 1000) := by
  intro fuel
  induction fuel with
  | zero =>
    intro attempt m lastErr hsum hpos hfuel
    omega
  | succ fuel ih =>
    intro attempt m lastErr hsum hpos hfuel
    by_cases hf : fuel = 0
    · subst hf
      have hat : attempt = retries := by omega
      rw [queryAux_err_final 0 m lastErr (ho attempt) (Or.inr hat)]
      subst hat
      refine ⟨rfl, rfl, ?_⟩
      have hpos' : 0 < attempt := hpos
      rw [if_pos hpos']
      rw [show List.range 1 = [0] from rfl]
      simp
    · have hne : attempt ≠ retries := by omega
      rw [queryAux_err_retry fuel m lastErr (ho attempt) (hnr attempt) hne]
      obtain ⟨ir, ia, idl⟩ := ih (attempt + 1)
        { m with failedQueries := m.failedQueries + 1 } (some (err attempt))
        (by omega) (by omega) (by omega)
      refine ⟨ir, ?_, ?_⟩
      · dsimp only
        omega
      · dsimp only
        have hpos' : 0 < attempt := hpos
        rw [idl, if_pos hpos', List.range_succ_eq_map, List.map_cons, List.map_map]
        simp [Function.comp, Nat.add_comm, Nat.add_assoc, Nat.add_left_comm]

/-- C2: for a statement that always fails with a non-retryable error
(unique violation 23505, foreign-key violation 23503, undefined table
42P01, undefined column 42703, or a syntax error), `query` with any
`retries ≥ 0` performs exactly one attempt, inserts zero backoff delay,
and surfaces the original error to the caller. -/
theorem C2_nonretryable_single_attempt (α : Type) (e : JsError)
    (retries : Nat) (m : Metrics) (h : nonRetryable e = true) :
    (query (fun _ => .error e : Nat → Except JsError (α × Nat)) retries m).attempts = 1 ∧
    (query (fun _ => .error e : Nat → Except JsError (α × Nat)) retries m).delays = [] ∧
    (query (fun _ => .error e : Nat → Except JsError (α × Nat)) retries m).result
      = .error e := by
  unfold query
  rw [queryAux_err_final retries m none rfl (Or.inl h)]
  exact ⟨rfl, rfl, rfl⟩

/-- Witness for C2: a unique-violation error with `retries = 2` makes
exactly one attempt, no delay, and surfaces the error. -/
theorem C2_witness :
    (query (fun _ => .error errUnique : Nat → Except JsError (Nat × Nat)) 2
      ⟨0, 0, 0, none, none⟩).attempts = 1 ∧
    (query (fun _ => .error errUnique : Nat → Except JsError (Nat × Nat)) 2
      ⟨0, 0, 0, none, none⟩).delays = [] ∧
    (query (fun _ => .error errUnique : Nat → Except JsError (Nat × Nat)) 2
      ⟨0, 0, 0, none, none⟩).result = .error errUnique :=
  C2_nonretryable_single_attempt Nat errUnique 2 ⟨0, 0, 0, none, none⟩ (by decide)

/-- C3: for a statement that always fails with transient (retryable)
errors, `query` performs exactly `retries + 1` attempts, waits
`2 ^ attempt` seconds (`2 ^ attempt * 1000` ms) before each retry attempt
— a strictly increasing delay sequence — and surfaces the error of the
last attempt. -/
theorem C3_transient_retry_schedule (α : Type) (err : Nat → JsError)
    (retries : Nat) (m : Metrics)
    (hnr : ∀ n, nonRetryable (err n) = false) :
    (query (fun n => .error (err n) : Nat → Except JsError (α × Nat)) retries m).result
      = .error (err retries) ∧
    (query (fun n => .error (err n) : Nat → Except JsError (α × Nat)) retries m).attempts
      = retries + 1 ∧
    (query (fun n => .error (err n) : Nat → Except JsError (α × Nat)) retries m).delays
      = (List.range retries).map (fun i => 2 ^ (i + 1) * 1000) ∧
    List.Pairwise (· < ·)
      (query (fun n => .error (err n) : Nat → Except JsError (α × Nat)) retries m).delays := by
  unfold query
  cases retries with
  | zero =>
    rw [queryAux_err_final 0 m none rfl (Or.inr rfl)]
    exact ⟨rfl, rfl, rfl, List.Pairwise.nil⟩
  | succ r =>
    have h0 : (0 : Nat) ≠ r + 1 := by omega
    rw [queryAux_err_retry (r + 1) m none rfl (hnr 0) h0]
    obtain ⟨ir, ia, idl⟩ := queryAux_transient (fun n => .error (err n)) (r + 1) err
      (fun n => rfl) hnr (r + 1) 1 { m with failedQueries := m.failedQueries + 1 }
      (some (err 0)) (by omega) (by omega) (by omega)
    refine ⟨ir, ?_, ?_, ?_⟩
    · dsimp only
      simp only [Nat.zero_add] at ia ⊢
      omega
    · dsimp only
      rw [idl]
      simp [Nat.add_comm]
    · dsimp only
      rw [idl]
      simp only [Nat.lt_irrefl, if_neg, List.nil_append, reduceIte]
      rw [List.pairwise_map]
      refine List.Pairwise.imp ?_ (List.pairwise_lt_range _)
      intro a b hab
      gcongr
      omega

/-- Witness for C3: a connection-reset error with `retries = 2` makes
three attempts with delays 2s then 4s, and surfaces the last error. -/
theorem C3_witness :
    (query (fun _ => .error errTransient : Nat → Except JsError (Nat × Nat)) 2
      ⟨0, 0, 0, none, none⟩).result = .error errTransient ∧
    (query (fun _ => .error errTransient : Nat → Except JsError (Nat × Nat)) 2
      ⟨0, 0, 0, none, none⟩).attempts = 2 + 1 ∧
    (query (fun _ => .error errTransient : Nat → Except JsError (Nat × Nat)) 2
      ⟨0, 0, 0, none, none⟩).delays = (List.range 2).map (fun i => 2 ^ (i + 1) * 1000) ∧
    List.Pairwise (· < ·)
      (query (fun _ => .error errTransient : Nat → Except JsError (Nat × Nat)) 2
        ⟨0, 0, 0, none, none⟩).delays :=
  C3_transient_retry_schedule Nat (fun _ => errTransient) 2 ⟨0, 0, 0, none, none⟩
    (fun _ => (by decide : nonRetryable errTransient = false))

/-- C7 counterexample: a call whose single attempt completes by failing
(with a transient error, `retries = 0`) leaves `avgQueryTime` and its
weight `totalQueries` untouched and records no duration — so the running
mean is not updated once per completed attempt: failed attempts never
contribute. -/
theorem C7_counterexample :
    (query (fun _ => .error errTransient : Nat → Except JsError (Nat × Nat)) 0
      ⟨3, 0, 10, none, none⟩).attempts = 1 ∧
    (query (fun _ => .error errTransient : Nat → Except JsError (Nat × Nat)) 0
      ⟨3, 0, 10, none, none⟩).metrics.failedQueries = 1 ∧
    (query (fun _ => .error errTransient : Nat → Except JsError (Nat × Nat)) 0
      ⟨3, 0, 10, none, none⟩).metrics.avgQueryTime = 10 ∧
    (query (fun _ => .error errTransient : Nat → Except JsError (Nat × Nat)) 0
      ⟨3, 0, 10, none, none⟩).metrics.totalQueries = 3 ∧
    (query (fun _ => .error errTransient : Nat → Except JsError (Nat × Nat)) 0
      ⟨3, 0, 10, none, none⟩).recorded = none :=
  ⟨rfl, rfl, rfl, rfl, rfl⟩

/-- C7 (amended): `avgQueryTime` is a running weighted mean over successful
calls only — a successful call folds the one recorded duration into the
mean and increments the weight `totalQueries`; a failed call (whatever the
number of failed attempts it made) leaves `avgQueryTime` and
`totalQueries` unchanged and records no duration; `failedQueries` alone
tracks failed attempts. -/
theorem C7_amended_avg_tracks_successes_only (α : Type)
    (oracle : Nat → Except JsError (α × Nat)) (retries : Nat) (m : Metrics) :
    (∀ a : α, (query oracle retries m).result = .ok a →
      ∃ d : Nat, (query oracle retries m).recorded = some d ∧
        (query oracle retries m).metrics.avgQueryTime
          = (m.avgQueryTime * (m.totalQueries : ℚ) + (d : ℚ)) /
              ((m.totalQueries : ℚ) + 1) ∧
        (query oracle retries m).metrics.totalQueries = m.totalQueries + 1) ∧
    (∀ e : JsError, (query oracle retries m).result = .error e →
      (query oracle retries m).metrics.avgQueryTime = m.avgQueryTime ∧
      (query oracle retries m).metrics.totalQueries = m.totalQueries ∧
      (query oracle retries m).recorded = none) := by
  have h := queryAux_metrics oracle retries (retries + 1) 0 m none
  constructor
  · intro a ha
    obtain ⟨_, h2, _, d, hd, havg⟩ := h.1 a ha
    exact ⟨d, hd, havg, h2⟩
  · intro e he
    obtain ⟨h1, h2, _, h4⟩ := h.2 e he
    exact ⟨h2, h1, h4⟩

/-- Witness for C7 (amended): a call failing its only attempt leaves the
mean and its weight unchanged. -/
theorem C7_witness :
    (query (fun _ => .error errTransient : Nat → Except JsError (Nat × Nat)) 1
      ⟨5, 2, 7, none, none⟩).metrics.avgQueryTime = (⟨5, 2, 7, none, none⟩ : Metrics).avgQueryTime ∧
    (query (fun _ => .error errTransient : Nat → Except JsError (Nat × Nat)) 1
      ⟨5, 2, 7, none, none⟩).metrics.totalQueries = (⟨5, 2, 7, none, none⟩ : Metrics).totalQueries ∧
    (query (fun _ => .error errTransient : Nat → Except JsError (Nat × Nat)) 1
      ⟨5, 2, 7, none, none⟩).recorded = none :=
  (C7_amended_avg_tracks_successes_only Nat (fun _ => .error errTransient) 1
    ⟨5, 2, 7, none, none⟩).2 errTransient rfl

/-- C8: metrics postcondition of `query` — a successful call increments
`totalQueries` by exactly one and recomputes the running average with the
recorded duration, and the success itself adds nothing to `failedQueries`
(its increase equals the number of failed attempts, `attempts - 1`);
a failed call increments `failedQueries` once per failed attempt (all
`attempts` of them) and leaves `totalQueries` alone. -/
theorem C8_metrics_postcondition (α : Type)
    (oracle : Nat → Except JsError (α × Nat)) (retries : Nat) (m : Metrics) :
    (∀ a : α, (query oracle retries m).result = .ok a →
      (query oracle retries m).metrics.totalQueries = m.totalQueries + 1 ∧
      (query oracle retries m).metrics.failedQueries + 1
        = m.failedQueries + (query oracle retries m).attempts ∧
      ∃ d : Nat, (query oracle retries m).recorded = some d ∧
        (query oracle retries m).metrics.avgQueryTime
          = (m.avgQueryTime * (m.totalQueries : ℚ) + (d : ℚ)) /
              ((m.totalQueries : ℚ) + 1)) ∧
    (∀ e : JsError, (query oracle retries m).result = .error e →
      (query oracle retries m).metrics.totalQueries = m.totalQueries ∧
      (query oracle retries m).metrics.failedQueries
        = m.failedQueries + (query oracle retries m).attempts) := by
  have h := queryAux_metrics oracle retries (retries + 1) 0 m none
  constructor
  · intro a ha
    obtain ⟨_, h2, h3, hex⟩ := h.1 a ha
    exact ⟨h2, h3, hex⟩
  · intro e he
    obtain ⟨h1, _, h3, _⟩ := h.2 e he
    exact ⟨h1, h3⟩

/-- Witness for C8: a call that fails once then succeeds (duration 250 ms)
bumps `totalQueries` from 3 to 4, has exactly one failed attempt counted,
and folds 250 into the running mean. -/
theorem C8_witness :
    (query (fun n => if n < 1 then .error errTransient else .ok (5, 250) :
        Nat → Except JsError (Nat × Nat)) 2 ⟨3, 0, 10, none, none⟩).metrics.totalQueries
      = (⟨3, 0, 10, none, none⟩ : Metrics).totalQueries + 1 ∧
    (query (fun n => if n < 1 then .error errTransient else .ok (5, 250) :
        Nat → Except JsError (Nat × Nat)) 2 ⟨3, 0, 10, none, none⟩).metrics.failedQueries + 1
      = (⟨3, 0, 10, none, none⟩ : Metrics).failedQueries +
        (query (fun n => if n < 1 then .error errTransient else .ok (5, 250) :
          Nat → Except JsError (Nat × Nat)) 2 ⟨3, 0, 10, none, none⟩).attempts ∧
    ∃ d : Nat,
      (query (fun n => if n < 1 then .error errTransient else .ok (5, 250) :
        Nat → Except JsError (Nat × Nat)) 2 ⟨3, 0, 10, none, none⟩).recorded = some d ∧
      (query (fun n => if n < 1 then .error errTransient else .ok (5, 250) :
        Nat → Except JsError (Nat × Nat)) 2 ⟨3, 0, 10, none, none⟩).metrics.avgQueryTime
        = ((⟨3, 0, 10, none, none⟩ : Metrics).avgQueryTime *
            ((⟨3, 0, 10, none, none⟩ : Metrics).totalQueries : ℚ) + (d : ℚ)) /
            (((⟨3, 0, 10, none, none⟩ : Metrics).totalQueries : ℚ) + 1) :=
  (C8_metrics_postcondition Nat
    (fun n => if n < 1 then .error errTransient else .ok (5, 250)) 2
    ⟨3, 0, 10, none, none⟩).1 5 rfl

/-- A settled `transaction` state whose timer was cancelled is inert:
every further event is a no-op. -/
theorem txStep_done_cancelled (env : TxEnv α) (r : Except JsError α) (rel : Bool)
    (tr : List Ev) (l : Lab) :
    txStep env ⟨.done r, .cancelled, rel, tr⟩ l = ⟨.done r, .cancelled, rel, tr⟩ := by
  cases l <;> rfl

/-- A settled `safeClientQuery` state whose timer was cancelled is inert. -/
theorem scqStep_done_cancelled (bodyRes : Except JsError α) (r : Except JsError α)
    (rel : Bool) (tr : List Ev) (l : ScqLab) :
    scqStep bodyRes ⟨.done r, .cancelled, rel, tr⟩ l = ⟨.done r, .cancelled, rel, tr⟩ := by
  cases l <;> rfl

/-- The catch block always carries exactly the error it was entered with. -/
theorem mainErr_txCatch (e' : JsError) (s : TxState α) :
    mainErr (txCatch e' s).main = some e' := by
  unfold txCatch
  by_cases hr : (clearTimer s).isReleased <;> simp [hr, mainErr]

/-- One step of `transaction` can only put an environment-supplied error
(from BEGIN, the callback, or COMMIT) into the main path: the runner never
fabricates an error of its own. -/
theorem txStep_inv (env : TxEnv α) (s : TxState α) (l : Lab)
    (hs : ∀ e, mainErr s.main = some e → txEnvError env e) (e : JsError)
    (h : mainErr (txStep env s l).main = some e) : txEnvError env e := by
  obtain ⟨mn, tm, rel, tr⟩ := s
  cases l with
  | beginDone =>
    cases mn with
    | beginWait =>
      cases hb : env.beginRes with
      | ok u =>
        simp only [txStep, hb] at h
        simp [mainErr] at h
      | error e' =>
        simp only [txStep, hb] at h
        rw [mainErr_txCatch] at h
        obtain rfl := Option.some.inj h
        exact Or.inl hb
    | bodyWait => exact hs e h
    | commitWait a => exact hs e h
    | rollbackWait e' => exact hs e h
    | done r => exact hs e h
  | bodyDone =>
    cases mn with
    | bodyWait =>
      cases hb : env.bodyRes with
      | ok a =>
        simp only [txStep, hb] at h
        simp [mainErr] at h
      | error e' =>
        simp only [txStep, hb] at h
        rw [mainErr_txCatch] at h
        obtain rfl := Option.some.inj h
        exact Or.inr (Or.inl hb)
    | beginWait => exact hs e h
    | commitWait a => exact hs e h
    | rollbackWait e' => exact hs e h
    | done r => exact hs e h
  | commitDone =>
    cases mn with
    | commitWait a =>
      cases hb : env.commitRes with
      | ok u =>
        simp only [txStep, hb] at h
        cases tm <;> cases rel <;> simp [clearTimer, mainErr] at h
      | error e' =>
        simp only [txStep, hb] at h
        rw [mainErr_txCatch] at h
        obtain rfl := Option.some.inj h
        exact Or.inr (Or.inr hb)
    | beginWait => exact hs e h
    | bodyWait => exact hs e h
    | rollbackWait e' => exact hs e h
    | done r => exact hs e h
  | mainRbDone => cases mn <;> exact hs e h
  | timerFire => cases mn <;> cases tm <;> cases rel <;> exact hs e h
  | timerRbDone => cases mn <;> cases tm <;> exact hs e h

/-- Stepping any schedule preserves the error-origin invariant. -/
theorem txFoldl_inv (env : TxEnv α) :
    ∀ (sched : List Lab) (s : TxState α),
      (∀ e, mainErr s.main = some e → txEnvError env e) →
      ∀ e, mainErr (sched.foldl (txStep env) s).main = some e → txEnvError env e := by
  intro sched
  induction sched with
  | nil => intro s hs e h; exact hs e h
  | cons l ls ih =>
    intro s hs e h
    exact ih (txStep env s l) (fun e' h' => txStep_inv env s l hs e' h') e h

/-- Every error a `transaction` run propagates (or is about to propagate)
was injected by the environment through BEGIN, the callback, or COMMIT. -/
theorem txExec_mainErr (env : TxEnv α) (sched : List Lab) (e : JsError)
    (h : mainErr (txExec env sched).main = some e) : txEnvError env e :=
  txFoldl_inv env sched (txInit α) (fun e' h' => by simp [txInit, mainErr] at h') e h

/-- C1: the claimed exactly-once release fails on the code — when the
timeout handler has fired and is awaiting its ROLLBACK at the moment the
callback rejects, both the handler and the catch path pass the
`isReleased` check (the flag is only set after each path's `await`), and
`client.release(true)` is invoked twice. -/
theorem C1_release_invoked_twice :
    releaseCount (txExec raceEnv raceSched).trace = 2 ∧
    (txExec raceEnv raceSched).trace
      = [.qBegin, .timerFired, .qRollback, .qRollback, .releaseErrored, .releaseErrored] ∧
    (txExec raceEnv raceSched).isReleased = true :=
  ⟨rfl, rfl, rfl⟩

/-- C4 counterexample: with the timer having fired mid-body (forcing
ROLLBACK and an errored release) and the callback later resolving with 42,
the call does not propagate a `TransactionTimeout` error — it fails with
the closed-client error the post-timeout COMMIT rejects with (the code
never constructs any timeout error). -/
theorem C4_counterexample :
    (txExec timeoutEnv timeoutSched).main = .done (.error errClosed) ∧
    isTransactionTimeout errClosed = false ∧
    (txExec timeoutEnv timeoutSched).trace
      = [.qBegin, .timerFired, .qRollback, .releaseErrored, .qCommit] :=
  ⟨rfl, by decide, rfl⟩

/-- C4 (amended): when the timeout fires while the callback is still
running, the runner forces a ROLLBACK and an errored release and the
callback's eventual result is discarded (the post-timeout COMMIT fails on
the released connection and that error is what propagates); but no
`TransactionTimeout` error exists — every error the call can propagate
originates from BEGIN, the callback, or COMMIT. -/
theorem C4_amended_timeout_discards_body :
    (txExec timeoutEnv timeoutSched).trace
      = [.qBegin, .timerFired, .qRollback, .releaseErrored, .qCommit] ∧
    (txExec timeoutEnv timeoutSched).main = .done (.error errClosed) ∧
    releaseCount (txExec timeoutEnv timeoutSched).trace = 1 ∧
    (∀ (β : Type) (env : TxEnv β) (sched : List Lab) (e : JsError),
      mainErr (txExec env sched).main = some e → txEnvError env e) :=
  ⟨rfl, rfl, rfl, fun β env sched e h => txExec_mainErr env sched e h⟩

/-- Witness for C4 (amended): the error surfaced in the timeout scenario is
environment-injected (it is the COMMIT rejection). -/
theorem C4_witness : txEnvError timeoutEnv errClosed :=
  C4_amended_timeout_discards_body.2.2.2 Nat timeoutEnv timeoutSched errClosed rfl

/-- C5: when the callback throws before the timeout fires, the runner
cancels the timer, attempts a ROLLBACK before the single errored release,
and propagates the callback's original error — whatever the ROLLBACK
itself does (its failure is only logged, never masks the body error).
After settling, no further event can change the state. -/
theorem C5_body_error_cleanup (α : Type) (e : JsError)
    (cres mrb trb : Except JsError Unit) (rest : List Lab) :
    (txExec (⟨.ok (), .error e, cres, mrb, trb⟩ : TxEnv α)
        [.beginDone, .bodyDone, .mainRbDone]).trace
      = [.qBegin, .timerCancelled, .qRollback, .releaseErrored] ∧
    (txExec (⟨.ok (), .error e, cres, mrb, trb⟩ : TxEnv α)
        [.beginDone, .bodyDone, .mainRbDone]).main = .done (.error e) ∧
    releaseCount (txExec (⟨.ok (), .error e, cres, mrb, trb⟩ : TxEnv α)
        [.beginDone, .bodyDone, .mainRbDone]).trace = 1 ∧
    txExec (⟨.ok (), .error e, cres, mrb, trb⟩ : TxEnv α)
        ([.beginDone, .bodyDone, .mainRbDone] ++ rest)
      = txExec (⟨.ok (), .error e, cres, mrb, trb⟩ : TxEnv α)
        [.beginDone, .bodyDone, .mainRbDone] := by
  refine ⟨rfl, rfl, rfl, ?_⟩
  have hfin : List.foldl (txStep (⟨.ok (), .error e, cres, mrb, trb⟩ : TxEnv α))
      (txInit α) [.beginDone, .bodyDone, .mainRbDone]
      = (⟨.done (.error e), .cancelled, true,
          [.qBegin, .timerCancelled, .qRollback, .releaseErrored]⟩ : TxState α) := rfl
  unfold txExec
  rw [List.foldl_append, hfin]
  exact foldl_of_fixed _ _
    (txStep_done_cancelled (⟨.ok (), .error e, cres, mrb, trb⟩ : TxEnv α) _ _ _) rest

/-- C6 counterexample: the callback completes normally before the timeout
fires, yet — because the timer elapses during the COMMIT await, before the
success path reaches its `clearTimeout` — no plain release ever happens,
the timer fires after COMMIT was issued, and the callback's result is not
returned. -/
theorem C6_counterexample :
    (txExec timeoutEnv commitRaceSched).trace.count .releasePlain = 0 ∧
    (txExec timeoutEnv commitRaceSched).trace
      = [.qBegin, .qCommit, .timerFired, .qRollback, .releaseErrored] ∧
    (txExec timeoutEnv commitRaceSched).main = .done (.error errClosed) :=
  ⟨rfl, rfl, rfl⟩

/-- C6 (amended): when the callback completes normally, the COMMIT
succeeds, and the timeout has not elapsed by the time the success path
runs its cleanup, exactly one COMMIT is issued, the timer is cancelled,
exactly one plain release occurs, the callback's result is returned, and —
the timer being cancelled — no later event (in particular no timer firing)
can change anything. -/
theorem C6_amended_happy_path (α : Type) (a : α)
    (mrb trb : Except JsError Unit) (rest : List Lab) :
    (txExec (⟨.ok (), .ok a, .ok (), mrb, trb⟩ : TxEnv α)
        [.beginDone, .bodyDone, .commitDone]).trace
      = [.qBegin, .qCommit, .timerCancelled, .releasePlain] ∧
    (txExec (⟨.ok (), .ok a, .ok (), mrb, trb⟩ : TxEnv α)
        [.beginDone, .bodyDone, .commitDone]).trace.count .qCommit = 1 ∧
    releaseCount (txExec (⟨.ok (), .ok a, .ok (), mrb, trb⟩ : TxEnv α)
        [.beginDone, .bodyDone, .commitDone]).trace = 1 ∧
    (txExec (⟨.ok (), .ok a, .ok (), mrb, trb⟩ : TxEnv α)
        [.beginDone, .bodyDone, .commitDone]).main = .done (.ok a) ∧
    (txExec (⟨.ok (), .ok a, .ok (), mrb, trb⟩ : TxEnv α)
        [.beginDone, .bodyDone, .commitDone]).timer = .cancelled ∧
    txExec (⟨.ok (), .ok a, .ok (), mrb, trb⟩ : TxEnv α)
        ([.beginDone, .bodyDone, .commitDone] ++ rest)
      = txExec (⟨.ok (), .ok a, .ok (), mrb, trb⟩ : TxEnv α)
        [.beginDone, .bodyDone, .commitDone] := by
  refine ⟨rfl, rfl, rfl, rfl, rfl, ?_⟩
  have hfin : List.foldl (txStep (⟨.ok (), .ok a, .ok (), mrb, trb⟩ : TxEnv α))
      (txInit α) [.beginDone, .bodyDone, .commitDone]
      = (⟨.done (.ok a), .cancelled, true,
          [.qBegin, .qCommit, .timerCancelled, .releasePlain]⟩ : TxState α) := rfl
  unfold txExec
  rw [List.foldl_append, hfin]
  exact foldl_of_fixed _ _
    (txStep_done_cancelled (⟨.ok (), .ok a, .ok (), mrb, trb⟩ : TxEnv α) _ _ _) rest

/-- C10: in every `safeClientQuery` run in which the safety timeout does
not fire, the client is released exactly once — plainly when the callback
resolves (and its value is returned unchanged), with the error flag when
it rejects (and its error is rethrown unchanged, never swallowed) — and
the cancelled timer makes the settled state inert. -/
theorem C10_safe_client_release_once (α : Type) (res : Except JsError α)
    (rest : List ScqLab) :
    (scqExec res [.bodyDone]).main = .done res ∧
    releaseCount (scqExec res [.bodyDone]).trace = 1 ∧
    (scqExec res [.bodyDone]).trace
      = (match res with
         | .ok _ => [.timerCancelled, .releasePlain]
         | .error _ => [.timerCancelled, .releaseErrored]) ∧
    scqExec res ([.bodyDone] ++ rest) = scqExec res [.bodyDone] := by
  cases res with
  | ok a =>
    refine ⟨rfl, rfl, rfl, ?_⟩
    have hfin : List.foldl (scqStep (.ok a : Except JsError α)) (scqInit α) [.bodyDone]
        = (⟨.done (.ok a), .cancelled, true,
            [.timerCancelled, .releasePlain]⟩ : ScqState α) := rfl
    unfold scqExec
    rw [List.foldl_append, hfin]
    exact foldl_of_fixed _ _ (scqStep_done_cancelled (.ok a) _ _ _) rest
  | error e =>
    refine ⟨rfl, rfl, rfl, ?_⟩
    have hfin : List.foldl (scqStep (.error e : Except JsError α)) (scqInit α) [.bodyDone]
        = (⟨.done (.error e), .cancelled, true,
            [.timerCancelled, .releaseErrored]⟩ : ScqState α) := rfl
    unfold scqExec
    rw [List.foldl_append, hfin]
    exact foldl_of_fixed _ _ (scqStep_done_cancelled (.error e) _ _ _) rest

/-- C9: `healthCheck` is a total function of the liveness-query outcome
(the whole body is one try/catch whose catch returns a value, so it never
throws): a successful liveness query yields the full healthy payload with
pool counters and the metrics snapshot; a failed one yields the unhealthy
payload carrying the failure's message — non-empty whenever that message
is — and the pool counters. -/
theorem C9_health_check_shape (row : LivenessRow) (e : JsError)
    (pc : PoolCounts) (m : Metrics) (h : e.message ≠ "") :
    healthCheck (.ok row) pc m
      = ⟨"healthy", some "connected", some row.time, some row.version, pc, some m, none⟩ ∧
    (healthCheck (.error e) pc m).status = "unhealthy" ∧
    (healthCheck (.error e) pc m).errField = some e.message ∧
    (healthCheck (.error e) pc m).poolCounts = pc ∧
    (healthCheck (.error e) pc m).metricsSnap = none ∧
    ∃ s : String, (healthCheck (.error e) pc m).errField = some s ∧ s ≠ "" :=
  ⟨rfl, rfl, rfl, rfl, rfl, e.message, rfl, h⟩

/-- Witness for C9: a concrete reachable and unreachable outcome. -/
theorem C9_witness :
    healthCheck (.ok ⟨1700000000, "PostgreSQL 15.3"⟩) ⟨2, 1, 0⟩ ⟨0, 0, 0, none, none⟩
      = ⟨"healthy", some "connected", some (1700000000 : Nat), some "PostgreSQL 15.3",
         ⟨2, 1, 0⟩, some ⟨0, 0, 0, none, none⟩, none⟩ ∧
    (healthCheck (.error ⟨"connect ECONNREFUSED 127.0.0.1:5432", none, "Error"⟩)
      ⟨2, 1, 0⟩ ⟨0, 0, 0, none, none⟩).status = "unhealthy" ∧
    (healthCheck (.error ⟨"connect ECONNREFUSED 127.0.0.1:5432", none, "Error"⟩)
      ⟨2, 1, 0⟩ ⟨0, 0, 0, none, none⟩).errField
        = some (⟨"connect ECONNREFUSED 127.0.0.1:5432", none, "Error"⟩ : JsError).message ∧
    (healthCheck (.error ⟨"connect ECONNREFUSED 127.0.0.1:5432", none, "Error"⟩)
      ⟨2, 1, 0⟩ ⟨0, 0, 0, none, none⟩).poolCounts = ⟨2, 1, 0⟩ ∧
    (healthCheck (.error ⟨"connect ECONNREFUSED 127.0.0.1:5432", none, "Error"⟩)
      ⟨2, 1, 0⟩ ⟨0, 0, 0, none, none⟩).metricsSnap = none ∧
    ∃ s : String,
      (healthCheck (.error ⟨"connect ECONNREFUSED 127.0.0.1:5432", none, "Error"⟩)
        ⟨2, 1, 0⟩ ⟨0, 0, 0, none, none⟩).errField = some s ∧ s ≠ "" :=
  C9_health_check_shape ⟨1700000000, "PostgreSQL 15.3"⟩
    ⟨"connect ECONNREFUSED 127.0.0.1:5432", none, "Error"⟩ ⟨2, 1, 0⟩
    ⟨0, 0, 0, none, none⟩ (by decide)

end SchoolDb
